import Mathlib

/-!
Verification of the secmon daemon's event pipeline against its specification.

The Rust sources are embedded shallowly: pure functions become Lean functions,
the stateful pieces (trigger cooldown map, network known-connection set) become
explicit state passing, and the effectful emit paths of the producers become
explicit action traces.  Machine integers are modelled as `Nat`; UTC instants
and `std::time::Instant` are modelled as whole seconds (`Nat`), matching the
`as_secs()` granularity the code compares at.  String operations from the Rust
standard library (`contains`, `starts_with`, `to_lowercase`, `replace`) are
implemented over the character list of a `String` so that every definition
evaluates inside the kernel.
-/

namespace Secmon

/-- Prefix test on character lists (str::starts_with). -/
def listPrefixOf : List Char → List Char → Bool
  | [], _ => true
  | _ :: _, [] => false
  | a :: as, b :: bs => a = b && listPrefixOf as bs

/-- Substring test on character lists (str::contains). -/
def listInfixOf (pat : List Char) : List Char → Bool
  | [] => listPrefixOf pat []
  | c :: cs => listPrefixOf pat (c :: cs) || listInfixOf pat cs

/-- Rust str::contains on strings. -/
def strContains (s pat : String) : Bool :=
  listInfixOf pat.data s.data

/-- Rust str::starts_with on strings. -/
def strStartsWith (s pat : String) : Bool :=
  listPrefixOf pat.data s.data

/-- Rust str::to_lowercase (the paths involved are ASCII, where Unicode and
ASCII lowercasing agree). -/
def strToLower (s : String) : String :=
  String.mk (s.data.map Char.toLower)

/-- Fuel-driven replacement of every non-overlapping occurrence of `pat`
(str::replace); the patterns used by the trigger engine are never empty,
and for a non-empty pattern `fuel = length of the subject` suffices. -/
def replaceFuel (pat rep : List Char) : Nat → List Char → List Char
  | 0, s => s
  | _ + 1, [] => []
  | fuel + 1, c :: cs =>
    if pat ≠ [] && listPrefixOf pat (c :: cs) then
      rep ++ replaceFuel pat rep fuel (List.drop pat.length (c :: cs))
    else
      c :: replaceFuel pat rep fuel cs

/-- Rust str::replace on strings. -/
def strReplace (s pat rep : String) : String :=
  String.mk (replaceFuel pat.data rep.data s.data.length s.data)

/-- First-match lookup in an association list (HashMap::get). -/
def assocLookup {α β : Type} [DecidableEq α] : List (α × β) → α → Option β
  | [], _ => none
  | (k, v) :: rest, key => if k = key then some v else assocLookup rest key

/-- Insert-or-replace in an association list (HashMap::insert). -/
def assocInsert {α β : Type} [DecidableEq α] : List (α × β) → α → β → List (α × β)
  | [], key, val => [(key, val)]
  | (k, v) :: rest, key, val =>
    if k = key then (key, val) :: rest else (k, v) :: assocInsert rest key val

/-- Severity grades of a security event (enum Severity, src/src/main.rs). -/
inductive Severity where
  | Low
  | Medium
  | High
  | Critical
deriving DecidableEq

/-- Event types the daemon can produce (enum EventType, src/src/main.rs). -/
inductive EventType where
  | FileAccess
  | FileModify
  | FileCreate
  | FileDelete
  | DirectoryAccess
  | CameraAccess
  | SshAccess
  | MicrophoneAccess
  | NetworkConnection
  | UsbDeviceInserted
deriving DecidableEq

/-- Payload of an event (struct EventDetails, src/src/main.rs); the metadata
HashMap is modelled as an association list. -/
structure EventDetails where
  severity : Severity
  description : String
  metadata : List (String × String)
deriving DecidableEq

/-- A security event (struct SecurityEvent, src/src/main.rs); the UTC
timestamp is modelled as seconds (`Nat`), the PathBuf as a `String`. -/
structure SecurityEvent where
  timestamp : Nat
  event_type : EventType
  path : String
  details : EventDetails
deriving DecidableEq

/-- The inotify mask bits the daemon subscribes to and inspects
(WatchMask MODIFY, CREATE, DELETE, ACCESS, OPEN in src/src/main.rs). -/
structure EventMask where
  modify : Bool
  create : Bool
  delete : Bool
  access : Bool
  openBit : Bool
deriving DecidableEq

/-- A raw inotify event as SecurityMonitor::monitor_events receives it:
watch descriptor, optional name fragment, mask. -/
structure InotifyEvent where
  wd : Nat
  name : Option String
  mask : EventMask
deriving DecidableEq

/-- Join of a watched base path and a name fragment (Path::join; the name
fragments inotify supplies are relative, where join is concatenation). -/
def pathJoin (base name : String) : String := base ++ "/" ++ name

/-- Debug rendering of the mask stored into metadata by
create_security_event (bitflags Debug output). -/
def maskDebug (m : EventMask) : String :=
  let parts :=
    (if m.modify then ["MODIFY"] else []) ++
    (if m.create then ["CREATE"] else []) ++
    (if m.delete then ["DELETE"] else []) ++
    (if m.access then ["ACCESS"] else []) ++
    (if m.openBit then ["OPEN"] else [])
  match parts with
  | [] => "(empty)"
  | p :: rest => rest.foldl (fun acc q => acc ++ " | " ++ q) p

/-- SecurityMonitor::classify_event (src/src/main.rs lines 350-400): the
source lowercases the base path and full path and tests substrings, in order
camera, microphone, ssh, then the mask bits. -/
def classify_event (base_path full_path : String) (mask : EventMask) :
    EventType × Severity × String :=
  let base_str := strToLower base_path
  let path_str := strToLower full_path
  if strContains base_str "video" || strContains base_str "camera" ||
      strContains path_str "/dev/video" then
    (EventType.CameraAccess, Severity.High,
      "Camera device access detected: " ++ full_path)
  else if strContains base_str "snd" || strContains path_str "/dev/snd/" ||
      strContains path_str "pcm" || strContains path_str "audio" ||
      strContains base_str "alsa" || strContains path_str "pulse" then
    (EventType.MicrophoneAccess, Severity.High,
      "Microphone/audio device access detected: " ++ full_path)
  else if strContains base_str "ssh" || strContains path_str ".ssh" ||
      strContains path_str "authorized_keys" then
    let severity :=
      if strContains path_str "authorized_keys" || strContains path_str "id_rsa" then
        Severity.Critical
      else
        Severity.High
    (EventType.SshAccess, severity, "SSH-related file access: " ++ full_path)
  else if mask.create then
    (EventType.FileCreate, Severity.Medium, "File created: " ++ full_path)
  else if mask.delete then
    (EventType.FileDelete, Severity.Medium, "File deleted: " ++ full_path)
  else if mask.modify then
    (EventType.FileModify, Severity.Low, "File modified: " ++ full_path)
  else if mask.access || mask.openBit then
    (EventType.FileAccess, Severity.Low, "File accessed: " ++ full_path)
  else
    (EventType.FileAccess, Severity.Low, "File system event: " ++ full_path)

/-- SecurityMonitor::create_security_event (src/src/main.rs lines 322-348);
Utc::now() is passed in as `now`. -/
def create_security_event (base_path : String) (event : InotifyEvent) (now : Nat) :
    SecurityEvent :=
  let full_path :=
    match event.name with
    | some name => pathJoin base_path name
    | none => base_path
  let c := classify_event base_path full_path event.mask
  let metadata :=
    [("mask", maskDebug event.mask)] ++
      (match event.name with
       | some name => [("filename", name)]
       | none => [])
  { timestamp := now
    event_type := c.1
    path := full_path
    details := { severity := c.2.1, description := c.2.2, metadata := metadata } }

/-- A trigger rule (struct EventTrigger, src/src/config.rs). -/
structure EventTrigger where
  name : String
  enabled : Bool
  event_types : List String
  min_severity : String
  command : String
  args : List String
  run_async : Bool
  cooldown_seconds : Nat
deriving DecidableEq

/-- SecurityMonitor::severity_meets_minimum (src/src/main.rs lines 505-522):
numeric levels 1..4, unknown minimum strings default to level 2 (Medium). -/
def severity_meets_minimum (event_severity : Severity) (min_severity : String) : Bool :=
  let event_level : Nat :=
    match event_severity with
    | Severity.Low => 1
    | Severity.Medium => 2
    | Severity.High => 3
    | Severity.Critical => 4
  let min_level : Nat :=
    if min_severity = "Low" then 1
    else if min_severity = "Medium" then 2
    else if min_severity = "High" then 3
    else if min_severity = "Critical" then 4
    else 2
  decide (min_level ≤ event_level)

/-- SecurityMonitor::check_trigger_cooldown (src/src/main.rs lines 491-503):
reject when `now - last_run < cooldown_seconds` (Instant subtraction never
goes negative, i.e. truncated `Nat` subtraction); otherwise record `now`
under the rule name and accept.  A rule that has never fired accepts and is
recorded as well. -/
def check_trigger_cooldown (cooldowns : List (String × Nat)) (trigger_name : String)
    (cooldown_seconds : Nat) (now : Nat) : Bool × List (String × Nat) :=
  match assocLookup cooldowns trigger_name with
  | some last_run =>
    if now - last_run < cooldown_seconds then (false, cooldowns)
    else (true, assocInsert cooldowns trigger_name now)
  | none => (true, assocInsert cooldowns trigger_name now)

/-- The Variant-to-name bridge the trigger engine matches with
(the match in SecurityMonitor::process_event_triggers, src/src/main.rs
lines 459-470). -/
def event_type_str : EventType → String
  | EventType.CameraAccess => "CameraAccess"
  | EventType.SshAccess => "SshAccess"
  | EventType.MicrophoneAccess => "MicrophoneAccess"
  | EventType.NetworkConnection => "NetworkConnection"
  | EventType.UsbDeviceInserted => "UsbDeviceInserted"
  | EventType.FileAccess => "FileAccess"
  | EventType.FileModify => "FileModify"
  | EventType.FileCreate => "FileCreate"
  | EventType.FileDelete => "FileDelete"
  | EventType.DirectoryAccess => "DirectoryAccess"

/-- Debug rendering of a severity, as format! with the Debug formatter in
SecurityMonitor::execute_trigger. -/
def severityDebug : Severity → String
  | Severity.Low => "Low"
  | Severity.Medium => "Medium"
  | Severity.High => "High"
  | Severity.Critical => "Critical"

/-- Variable substitution over trigger args performed by
SecurityMonitor::execute_trigger; the RFC3339 timestamp rendering is modelled
as the numeral of the timestamp. -/
def substituteArgs (args : List String) (event : SecurityEvent) : List String :=
  args.map (fun arg =>
    strReplace
      (strReplace
        (strReplace
          (strReplace arg "{path}" event.path)
          "{severity}" (severityDebug event.details.severity))
        "{description}" event.details.description)
      "{timestamp}" (toString event.timestamp))

/-- Observable steps of the trigger engine: recording the last-fire instant
of a rule, and spawning the configured command. -/
inductive TriggerAction where
  | setLastFire (name : String) (t : Nat)
  | spawn (command : String) (args : List String)
deriving DecidableEq

/-- One iteration of the rule loop in
SecurityMonitor::process_event_triggers (src/src/main.rs lines 450-489):
skip when disabled, when the event type name is not in the rule's
event_types, when the severity gate fails, or when the cooldown rejects;
otherwise the cooldown map is updated to `now` (a `setLastFire` action,
performed inside check_trigger_cooldown before execute_trigger runs) and the
command is spawned with substituted args. -/
def process_trigger (cooldowns : List (String × Nat)) (trigger : EventTrigger)
    (event : SecurityEvent) (now : Nat) : List TriggerAction × List (String × Nat) :=
  if trigger.enabled = false then ([], cooldowns)
  else if trigger.event_types.contains (event_type_str event.event_type) = false then
    ([], cooldowns)
  else if severity_meets_minimum event.details.severity trigger.min_severity = false then
    ([], cooldowns)
  else
    match check_trigger_cooldown cooldowns trigger.name trigger.cooldown_seconds now with
    | (false, c) => ([], c)
    | (true, c) =>
      ([TriggerAction.setLastFire trigger.name now,
        TriggerAction.spawn trigger.command (substituteArgs trigger.args event)], c)

/-- The full rule loop of SecurityMonitor::process_event_triggers over the
configured triggers, threading the cooldown map. -/
def process_event_triggers (triggers : List EventTrigger) (event : SecurityEvent)
    (now : Nat) (cooldowns : List (String × Nat)) :
    List TriggerAction × List (String × Nat) :=
  match triggers with
  | [] => ([], cooldowns)
  | t :: rest =>
    let r := process_trigger cooldowns t event now
    let r2 := process_event_triggers rest event now r.2
    (r.1 ++ r2.1, r2.2)

/-- Sequential processing of a list of events with their arrival instants,
as the filesystem loop does one event at a time. -/
def process_events (triggers : List EventTrigger) :
    List (SecurityEvent × Nat) → List (String × Nat) →
    List TriggerAction × List (String × Nat)
  | [], cooldowns => ([], cooldowns)
  | (e, t) :: rest, cooldowns =>
    let r := process_event_triggers triggers e t cooldowns
    let r2 := process_events triggers rest r.2
    (r.1 ++ r2.1, r2.2)

/-- Number of commands launched in a trigger action trace. -/
def countSpawns (actions : List TriggerAction) : Nat :=
  (actions.filter (fun a =>
    match a with
    | TriggerAction.spawn _ _ => true
    | _ => false)).length

/-- The four triggers of the default configuration
(impl Default for Config, src/src/config.rs lines 100-160), in order. -/
def camera_access_alert : EventTrigger :=
  { name := "Camera Access Alert"
    enabled := true
    event_types := ["CameraAccess"]
    min_severity := "High"
    command := "notify-send"
    args := ["-u", "critical", "Security Alert", "Camera access detected!"]
    run_async := true
    cooldown_seconds := 5 }

/-- Default trigger firing on SshAccess at Critical (src/src/config.rs). -/
def ssh_access_alert : EventTrigger :=
  { name := "SSH Access Alert"
    enabled := true
    event_types := ["SshAccess"]
    min_severity := "Critical"
    command := "notify-send"
    args := ["-u", "critical", "Security Alert", "SSH key access detected!"]
    run_async := true
    cooldown_seconds := 10 }

/-- Default trigger listening for the event type name PortScanDetected
(src/src/config.rs). -/
def port_scan_alert : EventTrigger :=
  { name := "Port Scan Alert"
    enabled := true
    event_types := ["PortScanDetected"]
    min_severity := "High"
    command := "notify-send"
    args := ["-u", "critical", "Security Alert",
             "Port scan detected from external source!"]
    run_async := true
    cooldown_seconds := 30 }

/-- Default trigger listening for the event type name NetworkDiscovery
(src/src/config.rs). -/
def network_discovery_alert : EventTrigger :=
  { name := "Network Discovery Alert"
    enabled := true
    event_types := ["NetworkDiscovery"]
    min_severity := "Medium"
    command := "logger"
    args := ["-p", "security.warning", "Network discovery attempt detected"]
    run_async := true
    cooldown_seconds := 60 }

/-- The `triggers` array of Config::default (src/src/config.rs). -/
def default_triggers : List EventTrigger :=
  [camera_access_alert, ssh_access_alert, port_scan_alert, network_discovery_alert]

/-- An IP address (std::net::IpAddr): four octets for IPv4, eight 16-bit
segments for IPv6. -/
inductive IpAddr where
  | v4 (a b c d : Nat)
  | v6 (segments : List Nat)
deriving DecidableEq

/-- IpAddr::is_loopback: 127.0.0.0/8 for IPv4 and ::1 for IPv6. -/
def IpAddr.loopback : IpAddr → Bool
  | IpAddr.v4 a _ _ _ => a = 127
  | IpAddr.v6 s => s = [0, 0, 0, 0, 0, 0, 0, 1]

/-- Ipv4Addr::is_private: 10/8, 172.16/12 and 192.168/16. -/
def ipv4Private (a b : Nat) : Bool :=
  a = 10 || (a = 172 && (16 ≤ b && b ≤ 31)) || (a = 192 && b = 168)

/-- A socket address (std::net::SocketAddr). -/
structure SocketAddr where
  ip : IpAddr
  port : Nat
deriving DecidableEq

/-- Textual rendering of an IP address (Display); IPv6 segments are joined
with colons without zero-compression, which no claim depends on. -/
def ipToString : IpAddr → String
  | IpAddr.v4 a b c d =>
    toString a ++ "." ++ toString b ++ "." ++ toString c ++ "." ++ toString d
  | IpAddr.v6 segments =>
    match segments.map toString with
    | [] => ""
    | s :: rest => rest.foldl (fun acc t => acc ++ ":" ++ t) s

/-- Textual rendering of a socket address (Display). -/
def addrToString (a : SocketAddr) : String :=
  ipToString a.ip ++ ":" ++ toString a.port

/-- One row of /proc/net/tcp as procfs returns it (TcpNetEntry); only the
fields the monitor reads are modelled. -/
structure TcpEntry where
  local_address : SocketAddr
  remote_address : SocketAddr
  state : String
  inode : Nat
deriving DecidableEq

/-- NetworkMonitor::classify_connection_severity
(src/src/network_monitor.rs lines 124-154).  The source renders the address
to a string and re-parses it, which round-trips losslessly; the parse-failure
fallback (Low) is therefore unreachable and the function is modelled directly
on the address. -/
def classify_connection_severity (addr : SocketAddr) : Severity :=
  if addr.ip.loopback then Severity.Low
  else
    let special : Option Severity :=
      match addr.ip with
      | IpAddr.v4 a b _ _ => if ipv4Private a b then some Severity.Medium else none
      | IpAddr.v6 s => if (IpAddr.v6 s).loopback then some Severity.Low else none
    match special with
    | some s => s
    | none =>
      let port := addr.port
      if port = 22 then Severity.High
      else if port = 443 || port = 80 then Severity.Low
      else if port = 21 || port = 23 then Severity.High
      else if port = 3389 then Severity.High
      else if port < 1024 then Severity.Medium
      else Severity.Low

/-- NetworkMonitor::emit_network_event (src/src/network_monitor.rs lines
97-122); Utc::now() is passed in as `now`. -/
def emit_network_event (entry : TcpEntry) (protocol : String) (now : Nat) :
    SecurityEvent :=
  { timestamp := now
    event_type := EventType.NetworkConnection
    path := "/proc/net/tcp"
    details :=
      { severity := classify_connection_severity entry.remote_address
        description :=
          "New " ++ protocol ++ " connection to " ++ addrToString entry.remote_address
        metadata :=
          [("protocol", protocol),
           ("local_address", addrToString entry.local_address),
           ("remote_address", addrToString entry.remote_address),
           ("state", entry.state),
           ("inode", toString entry.inode)] } }

/-- HashSet::insert on the known-connection set, modelled as a list with set
membership. -/
def insertAddr (s : List SocketAddr) (a : SocketAddr) : List SocketAddr :=
  if s.contains a then s else a :: s

/-- NetworkMonitor::initialize_known_connections (src/src/network_monitor.rs
lines 46-63): record every remote endpoint of both tables (an `Option`
models the `if let Ok` around each procfs read); nothing is emitted. -/
def initialize_known_connections (tcpRes tcp6Res : Option (List TcpEntry)) :
    List SocketAddr :=
  let k1 :=
    match tcpRes with
    | some entries => entries.foldl (fun s e => insertAddr s e.remote_address) []
    | none => []
  match tcp6Res with
  | some entries => entries.foldl (fun s e => insertAddr s e.remote_address) k1
  | none => k1

/-- The per-table loop of NetworkMonitor::check_new_connections: build up
`current_connections` and emit an event for every entry whose remote endpoint
is neither in the (unchanging) `known` set nor loopback. -/
def scan_entries (known : List SocketAddr) (current : List SocketAddr)
    (entries : List TcpEntry) (protocol : String) (now : Nat) :
    List SecurityEvent × List SocketAddr :=
  match entries with
  | [] => ([], current)
  | e :: rest =>
    let current2 := insertAddr current e.remote_address
    let r := scan_entries known current2 rest protocol now
    if !known.contains e.remote_address && !e.remote_address.ip.loopback then
      (emit_network_event e protocol now :: r.1, r.2)
    else
      r

/-- NetworkMonitor::check_new_connections (src/src/network_monitor.rs lines
65-95): scan /proc/net/tcp then /proc/net/tcp6, emit for unknown non-loopback
remotes, and replace the known set with the connections seen this tick. -/
def check_new_connections (known : List SocketAddr)
    (tcpRes tcp6Res : Option (List TcpEntry)) (now : Nat) :
    List SecurityEvent × List SocketAddr :=
  let r1 :=
    match tcpRes with
    | some entries => scan_entries known [] entries "TCP" now
    | none => ([], [])
  let r2 :=
    match tcp6Res with
    | some entries => scan_entries known r1.2 entries "TCP6" now
    | none => ([], r1.2)
  (r1.1 ++ r2.1, r2.2)

/-- A udev device as the USB monitor reads it: the optional properties and
paths consumed by emit_usb_insertion_event (src/src/usb_monitor.rs). -/
structure UsbDevice where
  devtype : Option String
  vendor_id : Option String
  product_id : Option String
  vendor : Option String
  product : Option String
  serial : Option String
  devnode : Option String
  syspath : Option String
deriving DecidableEq

/-- The metadata map built by UsbMonitor::emit_usb_insertion_event
(src/src/usb_monitor.rs lines 92-122), inserting each present property in
source order. -/
def usb_insertion_metadata (d : UsbDevice) : List (String × String) :=
  (match d.devtype with
   | some v => [("device_type", v)]
   | none => []) ++
  (match d.vendor_id with
   | some v => [("vendor_id", v)]
   | none => []) ++
  (match d.product_id with
   | some v => [("product_id", v)]
   | none => []) ++
  (match d.vendor with
   | some v => [("vendor", v)]
   | none => []) ++
  (match d.product with
   | some v => [("product", v)]
   | none => []) ++
  (match d.serial with
   | some v => [("serial", v)]
   | none => []) ++
  (match d.devnode with
   | some v => [("device_path", v)]
   | none => [])

/-- UsbMonitor::is_mass_storage_device: some metadata value, lowercased,
contains mass_storage, storage or disk. -/
def is_mass_storage_device (metadata : List (String × String)) : Bool :=
  metadata.any (fun kv =>
    let v := strToLower kv.2
    strContains v "mass_storage" || strContains v "storage" || strContains v "disk")

/-- UsbMonitor::is_hid_device: some metadata value, lowercased, contains hid,
keyboard or mouse. -/
def is_hid_device (metadata : List (String × String)) : Bool :=
  metadata.any (fun kv =>
    let v := strToLower kv.2
    strContains v "hid" || strContains v "keyboard" || strContains v "mouse")

/-- UsbMonitor::classify_usb_device_severity (src/src/usb_monitor.rs lines
181-210): requires device_type "usb_device" and both ids; rogue vendor ids
f000/dead are Critical, then the mass-storage guard, then the HID guard. -/
def classify_usb_device_severity (metadata : List (String × String)) : Severity :=
  match assocLookup metadata "device_type" with
  | some device_type =>
    if device_type = "usb_device" then
      match assocLookup metadata "vendor_id", assocLookup metadata "product_id" with
      | some vendor_id, some _ =>
        if vendor_id = "f000" || vendor_id = "dead" then Severity.Critical
        else if is_mass_storage_device metadata then Severity.Medium
        else if is_hid_device metadata then Severity.High
        else Severity.Low
      | _, _ => Severity.Medium
    else Severity.Low
  | none => Severity.Low

/-- UsbMonitor::emit_usb_insertion_event (src/src/usb_monitor.rs lines
92-156); Utc::now() is passed in as `now`. -/
def emit_usb_insertion_event (d : UsbDevice) (now : Nat) : SecurityEvent :=
  let metadata := usb_insertion_metadata d
  let severity := classify_usb_device_severity metadata
  let description :=
    match assocLookup metadata "vendor", assocLookup metadata "product" with
    | some vendor, some product =>
      "USB device inserted: " ++ vendor ++ " " ++ product ++ " (" ++
        (assocLookup metadata "vendor_id").getD "unknown" ++ ":" ++
        (assocLookup metadata "product_id").getD "unknown" ++ ")"
    | _, _ =>
      "USB device inserted: " ++
        (assocLookup metadata "vendor_id").getD "unknown" ++ ":" ++
        (assocLookup metadata "product_id").getD "unknown"
  { timestamp := now
    event_type := EventType.UsbDeviceInserted
    path := d.syspath.getD "/sys/devices/usb"
    details := { severity := severity, description := description, metadata := metadata } }

/-- UsbMonitor::emit_usb_removal_event (src/src/usb_monitor.rs lines
158-179): Low severity, minimal metadata, and the UsbDeviceInserted tag is
reused for removals. -/
def emit_usb_removal_event (d : UsbDevice) (now : Nat) : SecurityEvent :=
  { timestamp := now
    event_type := EventType.UsbDeviceInserted
    path := d.syspath.getD "/sys/devices/usb"
    details :=
      { severity := Severity.Low
        description := "USB device removed"
        metadata :=
          match d.devtype with
          | some v => [("device_type", v)]
          | none => [] } }

/-- Observable actions on the fan-out bus by a producer path: evaluating the
trigger rules for an event, and publishing an event to the bus. -/
inductive BusAction where
  | evalTriggers (e : SecurityEvent)
  | send (e : SecurityEvent)
deriving DecidableEq

/-- One event of the filesystem loop SecurityMonitor::monitor_events
(src/src/main.rs lines 298-320): events with an unknown watch descriptor are
dropped; known ones are classified, run through process_event_triggers, and
then sent on the bus. -/
def monitor_events_step (watched_paths : List (Nat × String))
    (event : InotifyEvent) (now : Nat) : List BusAction :=
  match assocLookup watched_paths event.wd with
  | some watched_path =>
    let se := create_security_event watched_path event now
    [BusAction.evalTriggers se, BusAction.send se]
  | none => []

/-- Bus actions of NetworkMonitor::emit_network_event: a bare send. -/
def network_emit_actions (entry : TcpEntry) (protocol : String) (now : Nat) :
    List BusAction :=
  [BusAction.send (emit_network_event entry protocol now)]

/-- Bus actions of UsbMonitor::emit_usb_insertion_event: a bare send. -/
def usb_insertion_actions (d : UsbDevice) (now : Nat) : List BusAction :=
  [BusAction.send (emit_usb_insertion_event d now)]

/-- Result of one broadcast::Receiver::recv() call as matched by
SecurityMonitor::handle_client. -/
inductive RecvResult where
  | ok (e : SecurityEvent)
  | lagged (n : Nat)
  | closed
deriving DecidableEq

/-- SecurityMonitor::handle_client (src/src/main.rs lines 418-448).  The
connection task loops on receiver.recv(): an event is serialized and written
to the client, a lag is logged and skipped, closure ends the loop.  The
function performs no read of the stream, so the `client_lines` argument (the
newline-delimited data a connected client writes, e.g. by the secmon-msg
tool) is never consumed.  The result is the list of events written out to
the client and the list of events injected into the bus by this task. -/
def handle_client : List RecvResult → List String →
    List SecurityEvent × List SecurityEvent
  | [], _ => ([], [])
  | RecvResult.ok e :: rest, client_lines =>
    let r := handle_client rest client_lines
    (e :: r.1, r.2)
  | RecvResult.lagged _ :: rest, client_lines => handle_client rest client_lines
  | RecvResult.closed :: _, _ => ([], [])

/-- File metadata as std::fs::metadata exposes it to device discovery. -/
structure FileMeta where
  is_char_device : Bool
  is_dir : Bool
  is_socket : Bool
deriving DecidableEq

/-- A static snapshot of the filesystem as device discovery probes it:
`metadata p` is the result of fs::metadata on path `p` (`none` when the probe
errors, in particular when the path does not exist — Path::exists() is
fs::metadata(..).is_ok()), and `read_dir d` the entry names of directory `d`
(`none` when fs::read_dir errors). -/
structure FileSystem where
  metadata : String → Option FileMeta
  read_dir : String → Option (List String)

/-- Last path component, as Path::file_name for the slash-separated paths
device discovery builds (none when the last component is empty). -/
def lastComponentAux (acc : List Char) : List Char → List Char
  | [] => acc
  | c :: cs => if c = '/' then lastComponentAux [] cs else lastComponentAux (acc ++ [c]) cs

/-- Path::file_name on a rendered path. -/
def fileName (p : String) : Option String :=
  let lc := lastComponentAux [] p.data
  if lc = [] then none else some (String.mk lc)

/-- DeviceDiscovery::is_video_device (src/src/device_discovery.rs lines
178-206): Ok(false) when the path does not exist, then a fallible
fs::metadata probe whose error propagates (`?` in the source), the character
device test, and for names starting with video the sysfs counterpart check. -/
def is_video_device (fs : FileSystem) (path : String) : Except String Bool :=
  if (fs.metadata path).isSome = false then Except.ok false
  else
    match fs.metadata path with
    | none => Except.error ("Failed to get metadata for " ++ path)
    | some m =>
      if m.is_char_device = false then Except.ok false
      else
        match fileName path with
        | some fname =>
          if strStartsWith fname "video" then
            Except.ok ((fs.metadata ("/sys/class/video4linux/" ++ fname)).isSome)
          else Except.ok true
        | none => Except.ok true

/-- DeviceDiscovery::is_audio_device (src/src/device_discovery.rs lines
209-228): audio devices may be character devices, directories or sockets. -/
def is_audio_device (fs : FileSystem) (path : String) : Except String Bool :=
  if (fs.metadata path).isSome = false then Except.ok false
  else
    match fs.metadata path with
    | none => Except.error ("Failed to get metadata for " ++ path)
    | some m => Except.ok (m.is_char_device || m.is_dir || m.is_socket)

/-- Byte-wise order on character lists, backing the Vec::sort call. -/
def listLe : List Char → List Char → Bool
  | [], _ => true
  | _ :: _, [] => false
  | a :: as, b :: bs => if a = b then listLe as bs else decide (a < b)

/-- Insert into a sorted list of strings. -/
def insertSorted (s : String) : List String → List String
  | [] => [s]
  | t :: rest => if listLe s.data t.data then s :: t :: rest else t :: insertSorted s rest

/-- Vec::sort on the discovered paths. -/
def sortStrings (l : List String) : List String :=
  l.foldr insertSorted []

/-- Vec::dedup: drop adjacent duplicates. -/
def dedupAdj : List String → List String
  | [] => []
  | [a] => [a]
  | a :: b :: rest =>
    if a = b then dedupAdj (b :: rest) else a :: dedupAdj (b :: rest)

/-- The /dev scan of DeviceDiscovery::discover_video_devices: entries named
video<N> are probed with is_video_device, whose error ends the whole
enumeration (the `?` in the source). -/
def video_dev_loop (fs : FileSystem) : List String → Except String (List String)
  | [] => Except.ok []
  | name :: rest =>
    if strStartsWith name "video" && (name.data.drop 5).all Char.isDigit then
      match is_video_device fs ("/dev/" ++ name) with
      | Except.error e => Except.error e
      | Except.ok b =>
        match video_dev_loop fs rest with
        | Except.error e => Except.error e
        | Except.ok ds => Except.ok (if b then ("/dev/" ++ name) :: ds else ds)
    else
      video_dev_loop fs rest

/-- The /dev/v4l/by-id scan of discover_video_devices: every entry is probed. -/
def v4l_loop (fs : FileSystem) : List String → Except String (List String)
  | [] => Except.ok []
  | name :: rest =>
    match is_video_device fs ("/dev/v4l/by-id/" ++ name) with
    | Except.error e => Except.error e
    | Except.ok b =>
      match v4l_loop fs rest with
      | Except.error e => Except.error e
      | Except.ok ds => Except.ok (if b then ("/dev/v4l/by-id/" ++ name) :: ds else ds)

/-- DeviceDiscovery::discover_video_devices (src/src/device_discovery.rs
lines 10-54): scan /dev and /dev/v4l/by-id (each read_dir error is skipped by
the `if let Ok`), then sort and dedup. -/
def discover_video_devices (fs : FileSystem) : Except String (List String) :=
  let part1 :=
    match fs.read_dir "/dev" with
    | some names => video_dev_loop fs names
    | none => Except.ok []
  match part1 with
  | Except.error e => Except.error e
  | Except.ok d1 =>
    let part2 :=
      match fs.read_dir "/dev/v4l/by-id" with
      | some names => v4l_loop fs names
      | none => Except.ok []
    match part2 with
    | Except.error e => Except.error e
    | Except.ok d2 => Except.ok (dedupAdj (sortStrings (d1 ++ d2)))

/-- The /dev/snd scan of DeviceDiscovery::discover_alsa_devices: entries with
an ALSA prefix are probed with is_audio_device, whose error propagates. -/
def alsa_loop (fs : FileSystem) : List String → Except String (List String)
  | [] => Except.ok []
  | name :: rest =>
    if strStartsWith name "pcm" || strStartsWith name "control" ||
        strStartsWith name "hw" || strStartsWith name "seq" ||
        strStartsWith name "timer" then
      match is_audio_device fs ("/dev/snd/" ++ name) with
      | Except.error e => Except.error e
      | Except.ok b =>
        match alsa_loop fs rest with
        | Except.error e => Except.error e
        | Except.ok ds => Except.ok (if b then ("/dev/snd/" ++ name) :: ds else ds)
    else
      alsa_loop fs rest

/-- DeviceDiscovery::discover_alsa_devices (src/src/device_discovery.rs
lines 76-111): nothing when /dev/snd does not exist; otherwise the prefix
scan plus the /dev/snd directory itself. -/
def discover_alsa_devices (fs : FileSystem) : Except String (List String) :=
  if (fs.metadata "/dev/snd").isSome = false then Except.ok []
  else
    let scanned :=
      match fs.read_dir "/dev/snd" with
      | some names => alsa_loop fs names
      | none => Except.ok []
    match scanned with
    | Except.error e => Except.error e
    | Except.ok ds => Except.ok (ds ++ ["/dev/snd"])

/-- DeviceDiscovery::discover_pulseaudio_devices (src/src/device_discovery.rs
lines 113-144): fixed candidate paths filtered by existence, plus the pulse
subdirectory of each /run/user entry when present.  Never fails. -/
def discover_pulseaudio_devices (fs : FileSystem) : List String :=
  (["/tmp/.pulse", "/run/user/1000/pulse", "/var/lib/pulse", "~/.pulse"].filter
      (fun p => (fs.metadata p).isSome)) ++
    (match fs.read_dir "/run/user" with
     | some entries =>
       entries.filterMap (fun e =>
         let pulse_dir := "/run/user/" ++ e ++ "/pulse"
         if (fs.metadata pulse_dir).isSome then some pulse_dir else none)
     | none => [])

/-- DeviceDiscovery::discover_jack_devices (src/src/device_discovery.rs
lines 146-175): under each existing candidate directory, entries whose name
contains jack.  Never fails. -/
def discover_jack_devices (fs : FileSystem) : List String :=
  (["/dev/shm", "/tmp/.jack", "/run/user/1000/jack"].map (fun p =>
    if (fs.metadata p).isSome then
      match fs.read_dir p with
      | some entries =>
        (entries.filter (fun n => strContains n "jack")).map (fun n => p ++ "/" ++ n)
      | none => []
    else [])).flatten

/-- DeviceDiscovery::discover_audio_devices (src/src/device_discovery.rs
lines 57-74): ALSA scan (fallible), then PulseAudio and JACK scans, then
sort and dedup. -/
def discover_audio_devices (fs : FileSystem) : Except String (List String) :=
  match discover_alsa_devices fs with
  | Except.error e => Except.error e
  | Except.ok alsa =>
    Except.ok (dedupAdj (sortStrings
      (alsa ++ discover_pulseaudio_devices fs ++ discover_jack_devices fs)))

/-- Minimum-severity parsing as the specification words it (section 4.H):
the four level names, any other string defaulting to Medium.  This is the
spec-side definition compared against severity_meets_minimum. -/
def spec_min_severity (s : String) : Severity :=
  if s = "Low" then Severity.Low
  else if s = "Medium" then Severity.Medium
  else if s = "High" then Severity.High
  else if s = "Critical" then Severity.Critical
  else Severity.Medium

/-- The specification's total order Low < Medium < High < Critical, written
as an explicit less-or-equal table (spec-side definition). -/
def spec_severity_le : Severity → Severity → Bool
  | Severity.Low, _ => true
  | Severity.Medium, Severity.Low => false
  | Severity.Medium, _ => true
  | Severity.High, Severity.Low => false
  | Severity.High, Severity.Medium => false
  | Severity.High, _ => true
  | Severity.Critical, Severity.Critical => true
  | Severity.Critical, _ => false

/-- Concrete CameraAccess event used as a witness input for the cooldown
theorem. -/
def witnessCameraEvent : SecurityEvent :=
  { timestamp := 0
    event_type := EventType.CameraAccess
    path := "/dev/video0"
    details :=
      { severity := Severity.High
        description := "Camera device access detected: /dev/video0"
        metadata := [] } }

section Theorems

/-- Strings are empty exactly when their character list is. -/
theorem ne_empty_of_data_ne_nil (s : String) (h : s.data ≠ []) : s ≠ "" := by
  intro hc
  apply h
  rw [hc]

/-- Appending cannot erase a non-empty left part. -/
theorem data_append_ne_nil_left (s t : String) (h : s.data ≠ []) :
    (s ++ t).data ≠ [] := by
  rw [String.data_append]
  intro hc
  rcases List.append_eq_nil.mp hc with ⟨h1, _⟩
  exact h h1

/-- Lookup after insert-or-replace finds the inserted value. -/
theorem assocLookup_assocInsert_self {α β : Type} [DecidableEq α]
    (l : List (α × β)) (k : α) (v : β) :
    assocLookup (assocInsert l k v) k = some v := by
  induction l with
  | nil => simp [assocInsert, assocLookup]
  | cons hd tl ih =>
    obtain ⟨k2, v2⟩ := hd
    by_cases h : k2 = k
    · simp [assocInsert, h, assocLookup]
    · simp [assocInsert, h, assocLookup, ih]

/-- C1: the daemon's per-connection task never injects anything into the
fan-out bus.  handle_client (src/src/main.rs lines 418-448) only receives
bus events and writes them out; it contains no read of the client stream, so
every line a client writes — including the well-formed JSON event line of
the second conjunct, which the secmon-msg tool sends expecting re-broadcast
— is ignored and the list of injected events is empty.  This refutes the
ingress round-trip the specification describes. -/
theorem handle_client_never_injects :
    (∀ (recvs : List RecvResult) (client_lines : List String),
      (handle_client recvs client_lines).2 = []) ∧
    (handle_client []
      ["\x7b\"event_type\":\x7b\"type\":\"CameraAccess\"\x7d,\"path\":\"/dev/video0\",\"details\":\x7b\"severity\":\"High\",\"description\":\"hi\",\"metadata\":\x7b\x7d\x7d\x7d"]).2
      = [] := by
  constructor
  · intro recvs client_lines
    induction recvs with
    | nil => rfl
    | cons head tail ih =>
      cases head with
      | ok e => simpa [handle_client] using ih
      | lagged n => simpa [handle_client] using ih
      | closed => rfl
  · rfl

/-- C2 counterexample: a network connection event is published on the bus
with no accompanying trigger evaluation.  For a concrete /proc/net/tcp entry
the emit path of the network poller performs a bare send, so the claim that
every event reaching the bus is evaluated against the trigger rules fails at
this input. -/
theorem network_send_without_trigger_eval :
    BusAction.send
        (emit_network_event
          ⟨⟨IpAddr.v4 192 0 2 1, 50000⟩, ⟨IpAddr.v4 203 0 113 7, 22⟩,
            "Established", 42⟩ "TCP" 7)
      ∈ network_emit_actions
          ⟨⟨IpAddr.v4 192 0 2 1, 50000⟩, ⟨IpAddr.v4 203 0 113 7, 22⟩,
            "Established", 42⟩ "TCP" 7 ∧
    ∀ se : SecurityEvent,
      BusAction.evalTriggers se
        ∉ network_emit_actions
            ⟨⟨IpAddr.v4 192 0 2 1, 50000⟩, ⟨IpAddr.v4 203 0 113 7, 22⟩,
              "Established", 42⟩ "TCP" 7 := by
  constructor
  · simp [network_emit_actions]
  · intro se h
    simp [network_emit_actions] at h

/-- C2 (amended): only the filesystem watcher path runs the trigger engine.
monitor_events (src/src/main.rs lines 298-320) evaluates the rules for each
event it is about to send (and for no other), while the network poller and
the USB monitor publish their events on the bus with no trigger
evaluation. -/
theorem trigger_evaluation_only_for_filesystem_events :
    (∀ (watched : List (Nat × String)) (ev : InotifyEvent) (now : Nat),
      monitor_events_step watched ev now = [] ∨
      ∃ se : SecurityEvent,
        monitor_events_step watched ev now =
          [BusAction.evalTriggers se, BusAction.send se]) ∧
    (∀ (entry : TcpEntry) (protocol : String) (now : Nat) (se : SecurityEvent),
      BusAction.evalTriggers se ∉ network_emit_actions entry protocol now) ∧
    (∀ (d : UsbDevice) (now : Nat) (se : SecurityEvent),
      BusAction.evalTriggers se ∉ usb_insertion_actions d now) := by
  refine ⟨?_, ?_, ?_⟩
  · intro watched ev now
    unfold monitor_events_step
    cases h : assocLookup watched ev.wd with
    | none => exact Or.inl rfl
    | some base => exact Or.inr ⟨create_security_event base ev now, rfl⟩
  · intro entry protocol now se h
    simp [network_emit_actions] at h
  · intro d now se h
    simp [usb_insertion_actions] at h

/-- C3 counterexample: two classifier inputs refuting the claim as stated.
A modification of /home/id_rsa has a full path containing id_rsa yet
classifies as FileModify (the ssh guard tests only ssh, .ssh and
authorized_keys, not id_rsa), and a modification of
/home/video/authorized_keys classifies as CameraAccess because the camera
rule precedes the ssh rule. -/
theorem ssh_critical_rule_counterexample :
    (strContains (strToLower "/home/id_rsa") "id_rsa" = true ∧
      (classify_event "/home" "/home/id_rsa"
        ⟨true, false, false, false, false⟩).1 = EventType.FileModify ∧
      (classify_event "/home" "/home/id_rsa"
        ⟨true, false, false, false, false⟩).1 ≠ EventType.SshAccess) ∧
    (strContains (strToLower "/home/video/authorized_keys") "authorized_keys" = true ∧
      (classify_event "/home/video" "/home/video/authorized_keys"
        ⟨true, false, false, false, false⟩).1 = EventType.CameraAccess ∧
      (classify_event "/home/video" "/home/video/authorized_keys"
        ⟨true, false, false, false, false⟩).1 ≠ EventType.SshAccess) := by
  exact ⟨⟨by decide, by decide, by decide⟩, ⟨by decide, by decide, by decide⟩⟩

/-- C3 (amended): when neither the camera rule nor the microphone rule
matches, the ssh guard holds (base contains ssh, or the path contains .ssh
or authorized_keys), and the lowercased full path contains authorized_keys
or id_rsa, the classifier returns SshAccess with Critical severity for every
mask — taking precedence over the mask-based rules. -/
theorem ssh_critical_classification_amended
    (base full : String) (mask : EventMask)
    (hcam : (strContains (strToLower base) "video" ||
        strContains (strToLower base) "camera" ||
        strContains (strToLower full) "/dev/video") = false)
    (hmic : (strContains (strToLower base) "snd" ||
        strContains (strToLower full) "/dev/snd/" ||
        strContains (strToLower full) "pcm" ||
        strContains (strToLower full) "audio" ||
        strContains (strToLower base) "alsa" ||
        strContains (strToLower full) "pulse") = false)
    (hssh : (strContains (strToLower base) "ssh" ||
        strContains (strToLower full) ".ssh" ||
        strContains (strToLower full) "authorized_keys") = true)
    (hkey : (strContains (strToLower full) "authorized_keys" ||
        strContains (strToLower full) "id_rsa") = true) :
    (classify_event base full mask).1 = EventType.SshAccess ∧
    (classify_event base full mask).2.1 = Severity.Critical := by
  unfold classify_event
  simp only [hcam, hmic, hssh, hkey, Bool.false_eq_true, if_false, if_true]
  constructor <;> first | rfl | trivial

/-- Witness for the amended C3 theorem: an authorized_keys modification
under /home classifies as SshAccess at Critical. -/
theorem ssh_critical_classification_witness :
    (classify_event "/home" "/home/alice/.ssh/authorized_keys"
      ⟨true, false, false, false, false⟩).1 = EventType.SshAccess ∧
    (classify_event "/home" "/home/alice/.ssh/authorized_keys"
      ⟨true, false, false, false, false⟩).2.1 = Severity.Critical :=
  ssh_critical_classification_amended "/home" "/home/alice/.ssh/authorized_keys"
    ⟨true, false, false, false, false⟩ (by decide) (by decide) (by decide) (by decide)

/-- C4: for an enabled rule with cooldown C whose type and severity gates
accept both events, processing two events dt apart from a fresh cooldown map
records the last-fire instant (inside check_trigger_cooldown, before the
spawn) and launches exactly one command when dt < C and exactly two when
dt ≥ C; the action trace shows each setLastFire preceding its spawn. -/
theorem cooldown_two_events
    (rule : EventTrigger) (ev1 ev2 : SecurityEvent) (t0 dt : Nat)
    (hen : rule.enabled = true)
    (hm1 : rule.event_types.contains (event_type_str ev1.event_type) = true)
    (hm2 : rule.event_types.contains (event_type_str ev2.event_type) = true)
    (hs1 : severity_meets_minimum ev1.details.severity rule.min_severity = true)
    (hs2 : severity_meets_minimum ev2.details.severity rule.min_severity = true) :
    (process_events [rule] [(ev1, t0), (ev2, t0 + dt)] []).1 =
      (if dt < rule.cooldown_seconds then
        [TriggerAction.setLastFire rule.name t0,
         TriggerAction.spawn rule.command (substituteArgs rule.args ev1)]
      else
        [TriggerAction.setLastFire rule.name t0,
         TriggerAction.spawn rule.command (substituteArgs rule.args ev1),
         TriggerAction.setLastFire rule.name (t0 + dt),
         TriggerAction.spawn rule.command (substituteArgs rule.args ev2)]) ∧
    countSpawns (process_events [rule] [(ev1, t0), (ev2, t0 + dt)] []).1 =
      (if dt < rule.cooldown_seconds then 1 else 2) := by
  have hm1m : event_type_str ev1.event_type ∈ rule.event_types := by
    simpa using hm1
  have hm2m : event_type_str ev2.event_type ∈ rule.event_types := by
    simpa using hm2
  have h1 : process_event_triggers [rule] ev1 t0 [] =
      ([TriggerAction.setLastFire rule.name t0,
        TriggerAction.spawn rule.command (substituteArgs rule.args ev1)],
       [(rule.name, t0)]) := by
    simp [process_event_triggers, process_trigger, hen, hm1m, hs1,
      check_trigger_cooldown, assocLookup, assocInsert]
  by_cases hdt : dt < rule.cooldown_seconds
  · have h2 : process_event_triggers [rule] ev2 (t0 + dt) [(rule.name, t0)] =
        ([], [(rule.name, t0)]) := by
      simp [process_event_triggers, process_trigger, hen, hm2m, hs2,
        check_trigger_cooldown, assocLookup, Nat.add_sub_cancel_left, hdt]
    simp [process_events, h1, h2, hdt, countSpawns]
  · have h2 : process_event_triggers [rule] ev2 (t0 + dt) [(rule.name, t0)] =
        ([TriggerAction.setLastFire rule.name (t0 + dt),
          TriggerAction.spawn rule.command (substituteArgs rule.args ev2)],
         [(rule.name, t0 + dt)]) := by
      simp [process_event_triggers, process_trigger, hen, hm2m, hs2,
        check_trigger_cooldown, assocLookup, assocInsert,
        Nat.add_sub_cancel_left, hdt]
    simp [process_events, h1, h2, hdt, countSpawns]

/-- Witness for the cooldown theorem: the default camera trigger (cooldown
5 s) with matching CameraAccess events at t = 0 and t = 3 launches exactly
one command. -/
theorem cooldown_two_events_witness :
    countSpawns (process_events [camera_access_alert]
        [(witnessCameraEvent, 0), (witnessCameraEvent, 0 + 3)] []).1 =
      (if 3 < camera_access_alert.cooldown_seconds then 1 else 2) :=
  (cooldown_two_events camera_access_alert witnessCameraEvent witnessCameraEvent
    0 3 (by decide) (by decide) (by decide) (by decide) (by decide)).2

/-- C5: the trigger engine's severity gate agrees, for every severity and
every minimum string, with the specification's reading — the event severity
is at least the parsed minimum under the total order
Low < Medium < High < Critical, unknown strings parsing as Medium; the
second conjunct pins that order as a strict chain. -/
theorem severity_gate_refines_spec_order :
    (∀ (s : Severity) (m : String),
      severity_meets_minimum s m = spec_severity_le (spec_min_severity m) s) ∧
    (spec_severity_le Severity.Low Severity.Medium = true ∧
     spec_severity_le Severity.Medium Severity.Low = false ∧
     spec_severity_le Severity.Medium Severity.High = true ∧
     spec_severity_le Severity.High Severity.Medium = false ∧
     spec_severity_le Severity.High Severity.Critical = true ∧
     spec_severity_le Severity.Critical Severity.High = false) := by
  constructor
  · intro s m
    by_cases h1 : m = "Low"
    · subst h1; cases s <;> rfl
    · by_cases h2 : m = "Medium"
      · subst h2; cases s <;> rfl
      · by_cases h3 : m = "High"
        · subst h3; cases s <;> rfl
        · by_cases h4 : m = "Critical"
          · subst h4; cases s <;> rfl
          · simp only [severity_meets_minimum, spec_min_severity,
              h1, h2, h3, h4, if_false]
            cases s <;> rfl
  · exact ⟨rfl, rfl, rfl, rfl, rfl, rfl⟩

/-- C7 counterexample: three USB insertion events refuting the claim as
stated.  With device_type usb_device, vendor id f000 but no product id the
severity is Medium, not Critical; with both ids and metadata containing both
HID and storage markers the severity is Medium, not High (the storage guard
precedes the HID guard); and with vendor id f000 but no device_type at all
the severity is Low, not Critical. -/
theorem usb_severity_counterexample :
    (assocLookup (usb_insertion_metadata
        ⟨some "usb_device", some "f000", none, none, none, none, none, none⟩)
        "vendor_id" = some "f000" ∧
      (emit_usb_insertion_event
        ⟨some "usb_device", some "f000", none, none, none, none, none, none⟩
        0).details.severity = Severity.Medium) ∧
    (is_hid_device (usb_insertion_metadata
        ⟨some "usb_device", some "1111", some "2222",
          some "HID Keyboard", some "Storage Disk", none, none, none⟩) = true ∧
      (emit_usb_insertion_event
        ⟨some "usb_device", some "1111", some "2222",
          some "HID Keyboard", some "Storage Disk", none, none, none⟩
        0).details.severity = Severity.Medium ∧
      Severity.Medium ≠ Severity.High) ∧
    (assocLookup (usb_insertion_metadata
        ⟨none, some "f000", some "2222", none, none, none, none, none⟩)
        "vendor_id" = some "f000" ∧
      (emit_usb_insertion_event
        ⟨none, some "f000", some "2222", none, none, none, none, none⟩
        0).details.severity = Severity.Low ∧
      Severity.Low ≠ Severity.Critical) := by
  exact ⟨⟨by decide, by decide⟩, ⟨by decide, by decide, by decide⟩,
    ⟨by decide, by decide, by decide⟩⟩

/-- C7 (amended): for USB insertion metadata with device_type usb_device and
both vendor and product ids present, vendor id f000 or dead yields Critical;
otherwise a mass_storage/storage/disk marker anywhere in the metadata values
yields Medium (taking precedence over the HID check); otherwise a
hid/keyboard/mouse marker yields High; otherwise Low. -/
theorem usb_severity_amended
    (md : List (String × String)) (vid pid : String)
    (hdt : assocLookup md "device_type" = some "usb_device")
    (hv : assocLookup md "vendor_id" = some vid)
    (hp : assocLookup md "product_id" = some pid) :
    ((vid = "f000" ∨ vid = "dead") →
      classify_usb_device_severity md = Severity.Critical) ∧
    (vid ≠ "f000" → vid ≠ "dead" → is_mass_storage_device md = true →
      classify_usb_device_severity md = Severity.Medium) ∧
    (vid ≠ "f000" → vid ≠ "dead" → is_mass_storage_device md = false →
      is_hid_device md = true → classify_usb_device_severity md = Severity.High) ∧
    (vid ≠ "f000" → vid ≠ "dead" → is_mass_storage_device md = false →
      is_hid_device md = false → classify_usb_device_severity md = Severity.Low) := by
  unfold classify_usb_device_severity
  rw [hdt, hv, hp]
  refine ⟨?_, ?_, ?_, ?_⟩
  · rintro (h | h) <;> subst h <;> simp
  · intro hnf hnd hms
    simp [hnf, hnd, hms]
  · intro hnf hnd hms hhid
    simp [hnf, hnd, hms, hhid]
  · intro hnf hnd hms hhid
    simp [hnf, hnd, hms, hhid]

/-- Witness for the amended C7 theorem: metadata carrying both storage and
HID markers classifies as Medium. -/
theorem usb_severity_amended_witness :
    classify_usb_device_severity
      [("device_type", "usb_device"), ("vendor_id", "1111"),
       ("product_id", "2222"), ("vendor", "HID Keyboard"),
       ("product", "Storage Disk")] = Severity.Medium :=
  (usb_severity_amended
    [("device_type", "usb_device"), ("vendor_id", "1111"),
     ("product_id", "2222"), ("vendor", "HID Keyboard"),
     ("product", "Storage Disk")] "1111" "2222"
    (by decide) (by decide) (by decide)).2.1
    (by decide) (by decide) (by decide)

/-- C10: the event-type string the trigger engine matches is always one of
the ten variant names of EventType, and consequently the default
configuration's Port Scan Alert and Network Discovery Alert rules — whose
event_types name PortScanDetected and NetworkDiscovery — never launch their
command for any event, leaving the cooldown map untouched. -/
theorem trigger_event_names_closed :
    (∀ et : EventType, event_type_str et ∈
      ["FileAccess", "FileModify", "FileCreate", "FileDelete",
       "DirectoryAccess", "CameraAccess", "SshAccess", "MicrophoneAccess",
       "NetworkConnection", "UsbDeviceInserted"]) ∧
    port_scan_alert ∈ default_triggers ∧
    network_discovery_alert ∈ default_triggers ∧
    (∀ (ev : SecurityEvent) (now : Nat) (cooldowns : List (String × Nat)),
      process_trigger cooldowns port_scan_alert ev now = ([], cooldowns)) ∧
    (∀ (ev : SecurityEvent) (now : Nat) (cooldowns : List (String × Nat)),
      process_trigger cooldowns network_discovery_alert ev now = ([], cooldowns)) := by
  refine ⟨?_, by decide, by decide, ?_, ?_⟩
  · intro et
    cases et <;> decide
  · intro ev now cooldowns
    have he : port_scan_alert.enabled = true := rfl
    have h : event_type_str ev.event_type ∉ port_scan_alert.event_types := by
      cases hev : ev.event_type <;> decide
    simp [process_trigger, he, h]
  · intro ev now cooldowns
    have he : network_discovery_alert.enabled = true := rfl
    have h : event_type_str ev.event_type ∉ network_discovery_alert.event_types := by
      cases hev : ev.event_type <;> decide
    simp [process_trigger, he, h]

/-- The video-device probe never errors against a static filesystem state:
its only error path is the metadata call guarded by the existence check,
and Path::exists() is that same metadata probe succeeding. -/
theorem is_video_device_ok (fs : FileSystem) (p : String) :
    ∃ b, is_video_device fs p = Except.ok b := by
  unfold is_video_device
  cases h : fs.metadata p with
  | none => exact ⟨false, by simp [h]⟩
  | some m =>
    by_cases hc : m.is_char_device = false
    · exact ⟨false, by simp [h, hc]⟩
    · cases hf : fileName p with
      | none => exact ⟨true, by simp [h, hc, hf]⟩
      | some fname =>
        by_cases hs : strStartsWith fname "video" = true
        · exact ⟨(fs.metadata ("/sys/class/video4linux/" ++ fname)).isSome,
            by simp [h, hc, hf, hs]⟩
        · exact ⟨true, by simp [h, hc, hf, hs]⟩

/-- The audio-device probe never errors against a static filesystem state. -/
theorem is_audio_device_ok (fs : FileSystem) (p : String) :
    ∃ b, is_audio_device fs p = Except.ok b := by
  unfold is_audio_device
  cases h : fs.metadata p with
  | none => exact ⟨false, by simp [h]⟩
  | some m => exact ⟨m.is_char_device || m.is_dir || m.is_socket, by simp [h]⟩

/-- The /dev video scan always succeeds. -/
theorem video_dev_loop_ok (fs : FileSystem) (names : List String) :
    ∃ l, video_dev_loop fs names = Except.ok l := by
  induction names with
  | nil => exact ⟨[], rfl⟩
  | cons n rest ih =>
    obtain ⟨l, hl⟩ := ih
    cases hn : (strStartsWith n "video" && (n.data.drop 5).all Char.isDigit) with
    | false => exact ⟨l, by simp [video_dev_loop, hn, hl]⟩
    | true =>
      obtain ⟨b, hb⟩ := is_video_device_ok fs ("/dev/" ++ n)
      exact ⟨if b then ("/dev/" ++ n) :: l else l,
        by simp [video_dev_loop, hn, hb, hl]⟩

/-- The /dev/v4l/by-id scan always succeeds. -/
theorem v4l_loop_ok (fs : FileSystem) (names : List String) :
    ∃ l, v4l_loop fs names = Except.ok l := by
  induction names with
  | nil => exact ⟨[], rfl⟩
  | cons n rest ih =>
    obtain ⟨l, hl⟩ := ih
    obtain ⟨b, hb⟩ := is_video_device_ok fs ("/dev/v4l/by-id/" ++ n)
    exact ⟨if b then ("/dev/v4l/by-id/" ++ n) :: l else l,
      by simp [v4l_loop, hb, hl]⟩

/-- The /dev/snd scan always succeeds. -/
theorem alsa_loop_ok (fs : FileSystem) (names : List String) :
    ∃ l, alsa_loop fs names = Except.ok l := by
  induction names with
  | nil => exact ⟨[], rfl⟩
  | cons n rest ih =>
    obtain ⟨l, hl⟩ := ih
    cases hn : (strStartsWith n "pcm" || strStartsWith n "control" ||
        strStartsWith n "hw" || strStartsWith n "seq" ||
        strStartsWith n "timer") with
    | false => exact ⟨l, by simp [alsa_loop, hn, hl]⟩
    | true =>
      obtain ⟨b, hb⟩ := is_audio_device_ok fs ("/dev/snd/" ++ n)
      exact ⟨if b then ("/dev/snd/" ++ n) :: l else l,
        by simp [alsa_loop, hn, hb, hl]⟩

/-- discover_video_devices succeeds against every static filesystem state. -/
theorem discover_video_devices_ok (fs : FileSystem) :
    ∃ l, discover_video_devices fs = Except.ok l := by
  unfold discover_video_devices
  cases h1 : fs.read_dir "/dev" with
  | none =>
    cases h2 : fs.read_dir "/dev/v4l/by-id" with
    | none => exact ⟨dedupAdj (sortStrings ([] ++ [])), by simp⟩
    | some names2 =>
      obtain ⟨l2, hl2⟩ := v4l_loop_ok fs names2
      exact ⟨dedupAdj (sortStrings ([] ++ l2)), by simp [hl2]⟩
  | some names =>
    obtain ⟨l1, hl1⟩ := video_dev_loop_ok fs names
    cases h2 : fs.read_dir "/dev/v4l/by-id" with
    | none => exact ⟨dedupAdj (sortStrings (l1 ++ [])), by simp [hl1]⟩
    | some names2 =>
      obtain ⟨l2, hl2⟩ := v4l_loop_ok fs names2
      exact ⟨dedupAdj (sortStrings (l1 ++ l2)), by simp [hl1, hl2]⟩

/-- discover_alsa_devices succeeds against every static filesystem state. -/
theorem discover_alsa_devices_ok (fs : FileSystem) :
    ∃ l, discover_alsa_devices fs = Except.ok l := by
  unfold discover_alsa_devices
  by_cases h : (fs.metadata "/dev/snd").isSome = false
  · exact ⟨[], by simp [h]⟩
  · cases h2 : fs.read_dir "/dev/snd" with
    | none => exact ⟨["/dev/snd"], by simp [h, h2]⟩
    | some names =>
      obtain ⟨l, hl⟩ := alsa_loop_ok fs names
      exact ⟨l ++ ["/dev/snd"], by simp [h, h2, hl]⟩

/-- discover_audio_devices succeeds against every static filesystem state. -/
theorem discover_audio_devices_ok (fs : FileSystem) :
    ∃ l, discover_audio_devices fs = Except.ok l := by
  obtain ⟨l, hl⟩ := discover_alsa_devices_ok fs
  exact ⟨dedupAdj (sortStrings
      (l ++ discover_pulseaudio_devices fs ++ discover_jack_devices fs)),
    by simp [discover_audio_devices, hl]⟩

/-- C8: device discovery never fails as a whole.  Against every static
filesystem snapshot both enumerations return Ok: every read_dir error is
skipped by an `if let Ok` in the source, and the only fallible per-probe
step — the fs::metadata call inside is_video_device / is_audio_device,
whose error the source would propagate with `?` — is guarded by
Path::exists(), which is the same metadata probe succeeding, so against an
unchanging filesystem the error branch is unreachable. -/
theorem device_discovery_total :
    ∀ fs : FileSystem,
      (∃ l, discover_video_devices fs = Except.ok l) ∧
      (∃ l, discover_audio_devices fs = Except.ok l) :=
  fun fs => ⟨discover_video_devices_ok fs, discover_audio_devices_ok fs⟩

/-- Every branch of the classifier produces a non-empty description. -/
theorem classify_event_description_ne_empty (b f : String) (m : EventMask) :
    (classify_event b f m).2.2 ≠ "" := by
  unfold classify_event
  dsimp only
  repeat' split
  all_goals
    apply ne_empty_of_data_ne_nil
    dsimp only
    apply data_append_ne_nil_left
    decide

/-- Every severity value is one of the four levels. -/
theorem severity_total (s : Severity) :
    s = Severity.Low ∨ s = Severity.Medium ∨ s = Severity.High ∨
      s = Severity.Critical := by
  cases s <;> simp

/-- C9: every event emitted by the filesystem classifier, the network
poller, and the USB monitor (insertions and removals) carries a severity
that is one of the four levels — severities are total by construction, every
constructor path assigns one — and a non-empty description. -/
theorem events_carry_severity_and_description :
    (∀ (base : String) (ev : InotifyEvent) (now : Nat),
      ((create_security_event base ev now).details.severity = Severity.Low ∨
        (create_security_event base ev now).details.severity = Severity.Medium ∨
        (create_security_event base ev now).details.severity = Severity.High ∨
        (create_security_event base ev now).details.severity = Severity.Critical) ∧
      (create_security_event base ev now).details.description ≠ "") ∧
    (∀ (entry : TcpEntry) (protocol : String) (now : Nat),
      ((emit_network_event entry protocol now).details.severity = Severity.Low ∨
        (emit_network_event entry protocol now).details.severity = Severity.Medium ∨
        (emit_network_event entry protocol now).details.severity = Severity.High ∨
        (emit_network_event entry protocol now).details.severity = Severity.Critical) ∧
      (emit_network_event entry protocol now).details.description ≠ "") ∧
    (∀ (d : UsbDevice) (now : Nat),
      (emit_usb_insertion_event d now).details.description ≠ "") ∧
    (∀ (d : UsbDevice) (now : Nat),
      (emit_usb_removal_event d now).details.description ≠ "") := by
  refine ⟨?_, ?_, ?_, ?_⟩
  · intro base ev now
    refine ⟨severity_total _, ?_⟩
    exact classify_event_description_ne_empty base _ ev.mask
  · intro entry protocol now
    refine ⟨severity_total _, ?_⟩
    apply ne_empty_of_data_ne_nil
    apply data_append_ne_nil_left
    apply data_append_ne_nil_left
    apply data_append_ne_nil_left
    decide
  · intro d now
    unfold emit_usb_insertion_event
    dsimp only
    cases assocLookup (usb_insertion_metadata d) "vendor" with
    | none =>
      apply ne_empty_of_data_ne_nil
      repeat' apply data_append_ne_nil_left
      decide
    | some v =>
      cases assocLookup (usb_insertion_metadata d) "product" with
      | none =>
        apply ne_empty_of_data_ne_nil
        repeat' apply data_append_ne_nil_left
        decide
      | some p =>
        apply ne_empty_of_data_ne_nil
        repeat' apply data_append_ne_nil_left
        decide
  · intro d now
    show ("USB device removed" : String) ≠ ""
    decide

/-- Membership after a set insert. -/
theorem mem_insertAddr (s : List SocketAddr) (a b : SocketAddr) :
    b ∈ insertAddr s a ↔ b ∈ s ∨ b = a := by
  unfold insertAddr
  by_cases h : s.contains a = true
  · have ha : a ∈ s := by simpa using h
    simp only [h, if_true]
    constructor
    · exact Or.inl
    · rintro (hb | rfl)
      · exact hb
      · exact ha
  · have h2 : s.contains a = false := by
      cases hc : s.contains a
      · rfl
      · exact absurd hc h
    simp only [h2, Bool.false_eq_true, if_false, List.mem_cons]
    tauto

/-- Membership in the known set built by folding inserts over a table. -/
theorem mem_foldl_insertAddr (entries : List TcpEntry) :
    ∀ (s : List SocketAddr) (a : SocketAddr),
      a ∈ entries.foldl (fun acc e => insertAddr acc e.remote_address) s ↔
        a ∈ s ∨ a ∈ entries.map (fun e => e.remote_address) := by
  induction entries with
  | nil => intro s a; simp
  | cons e rest ih =>
    intro s a
    rw [List.foldl_cons, ih, mem_insertAddr]
    simp only [List.map_cons, List.mem_cons]
    tauto

/-- The events emitted by one table scan are exactly the filtered entries,
in table order, independently of the current-connection accumulator. -/
theorem scan_entries_fst (known : List SocketAddr) (protocol : String) (now : Nat) :
    ∀ (entries : List TcpEntry) (current : List SocketAddr),
      (scan_entries known current entries protocol now).1 =
        (entries.filter (fun e =>
          !known.contains e.remote_address && !e.remote_address.ip.loopback)).map
          (fun e => emit_network_event e protocol now) := by
  intro entries
  induction entries with
  | nil => intro current; rfl
  | cons e rest ih =>
    intro current
    cases h1 : known.contains e.remote_address with
    | true =>
      have h1m : e.remote_address ∈ known := by simpa using h1
      simp [scan_entries, List.filter_cons, h1m, ih]
    | false =>
      have h1m : e.remote_address ∉ known := by simpa using h1
      cases h2 : e.remote_address.ip.loopback with
      | true => simp [scan_entries, List.filter_cons, h1m, h2, ih]
      | false => simp [scan_entries, List.filter_cons, h1m, h2, ih]

/-- The accumulator returned by one table scan collects the accumulator it
started from plus every remote endpoint of the table. -/
theorem scan_entries_snd (known : List SocketAddr) (protocol : String) (now : Nat) :
    ∀ (entries : List TcpEntry) (current : List SocketAddr) (a : SocketAddr),
      a ∈ (scan_entries known current entries protocol now).2 ↔
        a ∈ current ∨ a ∈ entries.map (fun e => e.remote_address) := by
  intro entries
  induction entries with
  | nil => intro current a; simp [scan_entries]
  | cons e rest ih =>
    intro current a
    have hstep : (scan_entries known current (e :: rest) protocol now).2 =
        (scan_entries known (insertAddr current e.remote_address) rest protocol now).2 := by
      cases h1 : known.contains e.remote_address with
      | true =>
        have h1m : e.remote_address ∈ known := by simpa using h1
        simp [scan_entries, h1m]
      | false =>
        have h1m : e.remote_address ∉ known := by simpa using h1
        cases h2 : e.remote_address.ip.loopback with
        | true => simp [scan_entries, h1m, h2]
        | false => simp [scan_entries, h1m, h2]
    rw [hstep, ih, mem_insertAddr]
    simp only [List.map_cons, List.mem_cons]
    tauto

/-- Every remote endpoint of a table folded at startup is in the resulting
known set. -/
theorem initialize_mem (tcpRes tcp6Res : Option (List TcpEntry)) (e : TcpEntry)
    (h : (∃ tcp, tcpRes = some tcp ∧ e ∈ tcp) ∨
      (∃ tcp6, tcp6Res = some tcp6 ∧ e ∈ tcp6)) :
    e.remote_address ∈ initialize_known_connections tcpRes tcp6Res := by
  unfold initialize_known_connections
  rcases h with ⟨tcp, htcp, he⟩ | ⟨tcp6, htcp6, he⟩
  · subst htcp
    cases tcp6Res with
    | none => rw [mem_foldl_insertAddr]; exact Or.inr (List.mem_map_of_mem _ he)
    | some tcp6 =>
      rw [mem_foldl_insertAddr, mem_foldl_insertAddr]
      exact Or.inl (Or.inr (List.mem_map_of_mem _ he))
  · subst htcp6
    cases tcpRes with
    | none => rw [mem_foldl_insertAddr]; exact Or.inr (List.mem_map_of_mem _ he)
    | some tcp =>
      rw [mem_foldl_insertAddr]
      exact Or.inr (List.mem_map_of_mem _ he)

/-- C6: the network poller is quiescent at startup and otherwise emits
exactly for new non-loopback remote endpoints.  First conjunct: a tick over
the same tables that initialized the known set emits nothing (for any
combination of readable and unreadable tables).  Second: over known set K a
tick emits, in order, one NetworkConnection event per /proc/net/tcp then
/proc/net/tcp6 entry whose remote endpoint is neither in K nor loopback.
Third: the replaced known set holds exactly the remote endpoints of the
current tables. -/
theorem network_poller_quiescence_and_emission :
    (∀ (tcpRes tcp6Res : Option (List TcpEntry)) (now : Nat),
      (check_new_connections (initialize_known_connections tcpRes tcp6Res)
        tcpRes tcp6Res now).1 = []) ∧
    (∀ (known : List SocketAddr) (tcp tcp6 : List TcpEntry) (now : Nat),
      (check_new_connections known (some tcp) (some tcp6) now).1 =
        ((tcp.filter (fun e =>
            !known.contains e.remote_address && !e.remote_address.ip.loopback)).map
          (fun e => emit_network_event e "TCP" now)) ++
        ((tcp6.filter (fun e =>
            !known.contains e.remote_address && !e.remote_address.ip.loopback)).map
          (fun e => emit_network_event e "TCP6" now))) ∧
    (∀ (known : List SocketAddr) (tcp tcp6 : List TcpEntry) (now : Nat)
        (a : SocketAddr),
      a ∈ (check_new_connections known (some tcp) (some tcp6) now).2 ↔
        a ∈ (tcp ++ tcp6).map (fun e => e.remote_address)) := by
  have hempty : ∀ (tcpRes tcp6Res : Option (List TcpEntry)) (tbl : List TcpEntry),
      ((∃ t, tcpRes = some t ∧ tbl = t) ∨ (∃ t, tcp6Res = some t ∧ tbl = t)) →
      tbl.filter (fun e =>
        !(initialize_known_connections tcpRes tcp6Res).contains e.remote_address &&
          !e.remote_address.ip.loopback) = [] := by
    intro tcpRes tcp6Res tbl hside
    apply List.filter_eq_nil_iff.mpr
    intro e he
    have hm : e.remote_address ∈ initialize_known_connections tcpRes tcp6Res := by
      apply initialize_mem
      rcases hside with ⟨t, ht, htb⟩ | ⟨t, ht, htb⟩
      · subst htb; exact Or.inl ⟨tbl, ht, he⟩
      · subst htb; exact Or.inr ⟨tbl, ht, he⟩
    simp [hm]
  refine ⟨?_, ?_, ?_⟩
  · intro tcpRes tcp6Res now
    cases htcp : tcpRes with
    | none =>
      cases htcp6 : tcp6Res with
      | none => rfl
      | some tcp6 =>
        show (check_new_connections (initialize_known_connections none (some tcp6))
          none (some tcp6) now).1 = []
        unfold check_new_connections
        dsimp only
        rw [scan_entries_fst,
          hempty none (some tcp6) tcp6 (Or.inr ⟨tcp6, rfl, rfl⟩)]
        rfl
    | some tcp =>
      cases htcp6 : tcp6Res with
      | none =>
        show (check_new_connections (initialize_known_connections (some tcp) none)
          (some tcp) none now).1 = []
        unfold check_new_connections
        dsimp only
        rw [scan_entries_fst,
          hempty (some tcp) none tcp (Or.inl ⟨tcp, rfl, rfl⟩)]
        rfl
      | some tcp6 =>
        show (check_new_connections
          (initialize_known_connections (some tcp) (some tcp6))
          (some tcp) (some tcp6) now).1 = []
        unfold check_new_connections
        dsimp only
        rw [scan_entries_fst, scan_entries_fst,
          hempty (some tcp) (some tcp6) tcp (Or.inl ⟨tcp, rfl, rfl⟩),
          hempty (some tcp) (some tcp6) tcp6 (Or.inr ⟨tcp6, rfl, rfl⟩)]
        rfl
  · intro known tcp tcp6 now
    unfold check_new_connections
    dsimp only
    rw [scan_entries_fst, scan_entries_fst]
  · intro known tcp tcp6 now a
    have h2 : (check_new_connections known (some tcp) (some tcp6) now).2 =
        (scan_entries known (scan_entries known [] tcp "TCP" now).2
          tcp6 "TCP6" now).2 := rfl
    rw [h2, scan_entries_snd, scan_entries_snd]
    simp only [List.map_append, List.mem_append, List.not_mem_nil]
    tauto

end Theorems

end Secmon
